import Mathlib

/-!
Verification development for the OmniUI artifact engine
(`src/lib/artifacts/{store,types,mutation-handler,relationship-detector,reference-resolver}.ts`).

The TypeScript sources are embedded shallowly:
* JavaScript runtime values (artifact `state`, mutation `value`/`previousValue`)
  become the inductive `JVal` below (`undefined` and `null` are distinct values,
  as in JS);
* the zustand store becomes a pure record `Store` with every store action a
  pure state transformer (nondeterministic inputs of the runtime —
  `Date.now()`, generated ids — are passed in as explicit arguments);
* regular-expression tests over the fixed pattern literals of the sources are
  embedded as executable scanners over character lists; the JavaScript
  statefulness of `/g`-flagged regexes (the `lastIndex` property that persists
  between calls on the same module-level regex object) is modelled by
  threading an explicit list of `lastIndex` values.

Zod schema handles (`artifact.schema`) are runtime-only validation objects
that none of the operations studied here ever inspects; they are omitted from
the embedding.
-/

/-! ## JavaScript values -/

mutual
inductive JVal where
  | null
  | undef
  | bool (b : Bool)
  | num (n : Int)
  | str (s : String)
  | arr (xs : JArr)
  | obj (fs : JObj)
deriving DecidableEq, Repr
inductive JArr where
  | anil
  | acons (hd : JVal) (tl : JArr)
deriving DecidableEq, Repr
inductive JObj where
  | onil
  | ocons (k : String) (v : JVal) (tl : JObj)
deriving DecidableEq, Repr
end

def JArr.toList : JArr → List JVal
  | .anil => []
  | .acons v tl => v :: tl.toList

def JArr.ofList : List JVal → JArr
  | [] => .anil
  | v :: tl => .acons v (JArr.ofList tl)

def JObj.toList : JObj → List (String × JVal)
  | .onil => []
  | .ocons k v tl => (k, v) :: tl.toList

def JObj.ofList : List (String × JVal) → JObj
  | [] => .onil
  | (k, v) :: tl => .ocons k v (JObj.ofList tl)

@[simp] theorem jarr_toList_ofList (l : List JVal) : (JArr.ofList l).toList = l := by
  induction l with
  | nil => rfl
  | cons h t ih => simp [JArr.ofList, JArr.toList, ih]

@[simp] theorem jobj_toList_ofList (l : List (String × JVal)) : (JObj.ofList l).toList = l := by
  induction l with
  | nil => rfl
  | cons h t ih => cases h; simp [JObj.ofList, JObj.toList, ih]

/-- JS property read `obj[k]` (absent key reads as `undefined`, which we model
as `none` so that the `!== undefined` tests of the sources become `Option`
matches). -/
def JObj.get : JObj → String → Option JVal
  | .onil, _ => none
  | .ocons k2 v tl, k => if k2 = k then some v else tl.get k

/-- JS spread-update `{...obj, [k]: v}`: an existing key keeps its position
and receives the new value, a new key is appended at the end. -/
def JObj.set : JObj → String → JVal → JObj
  | .onil, k, v => .ocons k v .onil
  | .ocons k2 v2 tl, k, v => if k2 = k then .ocons k2 v tl else .ocons k2 v2 (tl.set k v)

def JObj.hasKey (o : JObj) (k : String) : Bool :=
  (o.get k).isSome

/-- `Array.isArray` on a property read (an absent property is not an array). -/
def isArrayProp : Option JVal → Bool
  | some (JVal.arr _) => true
  | _ => false

/-- JS truthiness of a value (`undefined`, `null`, `false`, `0`, `""` are falsy). -/
def jTruthy : JVal → Bool
  | .null => false
  | .undef => false
  | .bool b => b
  | .num n => !(n = 0)
  | .str s => !(s = "")
  | .arr _ => true
  | .obj _ => true

example : JObj.get (JObj.ofList [("a", JVal.num 3), ("b", JVal.null)]) "b" = some JVal.null := by
  decide

example : (JObj.set (JObj.ofList [("a", JVal.num 3), ("b", JVal.null)]) "a" (JVal.str "x")).toList
    = [("a", JVal.str "x"), ("b", JVal.null)] := by decide

/-! ## Core artifact types (`src/lib/artifacts/types.ts`) -/

inductive MutationType where
  | add_item
  | remove_item
  | update_item
  | update_property
  | reorder_items
  | bulk_update
deriving DecidableEq, Repr

inductive Source where
  | user
  | ai
deriving DecidableEq, Repr

/-- `Artifact` (types.ts:8-30).  `relatedIds?` is optional in TS but every
consumer reads it through `(artifact.relatedIds || [])`, so the absent case and
the empty list are observationally identical and we use a plain list.  The
`schema` handle is omitted (runtime-only validation object, never inspected by
the embedded operations). -/
structure Artifact where
  id : String
  type : String
  state : JVal
  title : Option String := none
  description : Option String := none
  tags : Option (List String) := none
  version : Nat
  createdAt : Nat
  updatedAt : Nat
  parentId : Option String := none
  relatedIds : List String := []
deriving DecidableEq, Repr

/-- `Mutation` (types.ts:35-45).  `value` and `previousValue` are `any`
in TS and may be `undefined`; `JVal.undef` plays that role so that the
`previousValue !== undefined` test of `undoLastMutation` is an equality test
here. -/
structure Mutation where
  id : String
  artifactId : String
  operation : MutationType
  path : List String
  value : JVal := JVal.undef
  previousValue : JVal := JVal.undef
  timestamp : Nat
  source : Source
  reason : Option String := none
deriving DecidableEq, Repr

/-- `RelationType` (types.ts:68-73). -/
inductive RelationType where
  | references
  | depends_on
  | conflicts_with
  | derived_from
  | similar_to
deriving DecidableEq, Repr

/-- `Relationship` (types.ts:58-66). -/
structure Relationship where
  id : String
  sourceId : String
  targetId : String
  type : RelationType
  bidirectional : Bool
  createdAt : Nat
deriving DecidableEq, Repr

/-- `MutationResult` (types.ts:116-121). -/
structure MutationResult where
  success : Bool
  mutation : Option Mutation := none
  error : Option String := none
  newState : Option JVal := none
deriving DecidableEq, Repr

/-! ## JS object/array access helpers used by the mutation handler -/

/-- `Object.entries(v)` for the value shapes the mutation handler can meet:
objects list their fields, arrays list index/element pairs, strings list
index/character pairs, primitives have no own enumerable properties. -/
def jEntries : JVal → List (String × JVal)
  | .obj fs => fs.toList
  | .arr xs => xs.toList.enum.map (fun p => (toString p.1, p.2))
  | .str s => s.data.enum.map (fun p => (toString p.1, JVal.str (String.mk [p.2])))
  | _ => []

/-- Dynamic property read `v[k]` (`none` = `undefined`). -/
def jProp (v : JVal) (k : String) : Option JVal :=
  (jEntries v).lookup k

def isArrayV : JVal → Bool
  | .arr _ => true
  | _ => false

/-- JS spread-update `{...v, [k]: x}`: spreading always yields an object, an
existing own key keeps its position, a new key is appended. -/
def jSpreadSet (v : JVal) (k : String) (x : JVal) : JVal :=
  JVal.obj ((JObj.ofList (jEntries v)).set k x)

/-- JS two-spread merge `{...a, ...b}`. -/
def jSpreadMerge (a b : JVal) : JVal :=
  JVal.obj ((jEntries b).foldl (fun (o : JObj) p => o.set p.1 p.2) (JObj.ofList (jEntries a)))

/-- The array stored at field `f` (callers only use this after `findArrayField`
has certified that `v[f]` is an array). -/
def jPropList (v : JVal) (f : String) : List JVal :=
  match jProp v f with
  | some (JVal.arr xs) => xs.toList
  | _ => []

/-- JS indexed array read `xs[i]` (negative or out-of-range reads give
`undefined`). -/
def jIndex (xs : List JVal) (i : Int) : JVal :=
  if h : 0 ≤ i ∧ i.toNat < xs.length then xs[i.toNat] else JVal.undef

/-- JS indexed array write `xs[i] = v`.  An in-range index replaces the
element; any other index (negative, past the end, or the coerced key
`"undefined"`) only creates a stray non-index property, which no later array
operation in these sources ever reads back, so the element list is returned
unchanged. -/
def jSetIndex (xs : List JVal) (i : Int) (v : JVal) : List JVal :=
  if 0 ≤ i ∧ i.toNat < xs.length then xs.set i.toNat v else xs

/-- `Array.prototype.slice`/`splice` index normalisation (ECMA-262
"relative index": negative counts from the end, then clamp to `[0, len]`). -/
def normIdx (len : Nat) (i : Int) : Nat :=
  if i < 0 then (len + i).toNat else min i.toNat len

/-- JS `ToInteger` coercion for the values that can sit in
`intent.details.value` when it is used as an index (`value as number`):
numbers pass through, everything the NL parser can produce that is not a
number coerces to `0` (`ToInteger(NaN) = 0`, `ToInteger(undefined) = 0`). -/
def jToInt : Option JVal → Int
  | some (JVal.num n) => n
  | _ => 0

/-! ## Mutation handler (`src/lib/artifacts/mutation-handler.ts`) -/

/-- `MutationIntent.details` (mutation-handler.ts:13-19). -/
structure MutationDetails where
  itemIndex : Option Int := none
  itemId : Option String := none
  property : Option String := none
  value : Option JVal := none
  condition : Option (JVal → Bool) := none

/-- `MutationIntent` (mutation-handler.ts:10-21). -/
structure MutationIntent where
  type : MutationType
  artifactId : String
  details : MutationDetails
  originalMessage : String

/-- The condition predicate extracted by the `remove|delete completed`
pattern (mutation-handler.ts:61-67):
`(item) => item.completed === true || item.status === 'complete'`. -/
def removeCompletedCondition (item : JVal) : Bool :=
  jProp item "completed" = some (JVal.bool true) || jProp item "status" = some (JVal.str "complete")

/-- `findArrayField` (mutation-handler.ts:374-383). -/
def commonArrayNames : List String := ["items", "steps", "tasks", "metrics", "list", "entries"]

def findArrayField (state : JVal) : Option String :=
  match commonArrayNames.find? (fun n => isArrayProp (jProp state n)) with
  | some n => some n
  | none => ((jEntries state).find? (fun p => isArrayV p.2)).map Prod.fst

/-- `createMutation` (mutation-handler.ts:385-403).  The fresh uuid fragment
and `Date.now()` are passed in explicitly (`mutId`, `now`). -/
def createMutation (artifactId : String) (operation : MutationType) (path : List String)
    (previousValue : JVal) (source : Source) (reason : Option String)
    (mutId : String) (now : Nat) : Mutation :=
  { id := "mut_" ++ mutId
    artifactId := artifactId
    operation := operation
    path := path
    value := JVal.undef
    previousValue := previousValue
    timestamp := now
    source := source
    reason := reason }

/-- `validateMutation` (mutation-handler.ts:163-204), with `none` for
`{valid: true}` and `some err` for `{valid: false, error: err}`.  The
TS-side `!artifact` null check cannot arise here (the artifact argument is a
value). -/
def validateMutation (artifact : Artifact) (intent : MutationIntent) : Option String :=
  let state := artifact.state
  match intent.type with
  | .remove_item | .update_item =>
    match findArrayField state with
    | none => some "Artifact has no items to modify"
    | some f =>
      if !isArrayProp (jProp state f) then some "Artifact has no items to modify"
      else
        match intent.details.itemIndex, intent.details.condition with
        | some ix, none =>
          let len : Nat := (jPropList state f).length
          let index : Int := if ix = -1 then (len : Int) - 1 else ix
          if index < 0 ∨ (len : Int) ≤ index then
            some ("Item " ++ toString (index + 1) ++ " doesn\x27t exist (only " ++
              toString len ++ " items)")
          else none
        | _, _ => none
  | .add_item =>
    match findArrayField state with
    | none => some "Artifact has no list to add to"
    | some _ => none
  | .update_property =>
    match intent.details.property with
    | some p => if !(jProp state p).isSome then some ("Property \"" ++ p ++ "\" not found") else none
    | none => none
  | _ => none

/-- `applyRemoveItem` (mutation-handler.ts:242-268).  With a condition
predicate, all matching elements go into `previousValue` and all others into
the new array.  Without one, JS computes
`[...array.slice(0, index), ...array.slice(index + 1)]`; when `itemIndex` is
absent the index is `undefined`, so `array[undefined]` reads `undefined` and
`slice(0, undefined) ++ slice(NaN)` duplicates the array. -/
def applyRemoveItem (artifact : Artifact) (intent : MutationIntent) (source : Source)
    (mutId : String) (now : Nat) : MutationResult :=
  let state := artifact.state
  let f := (findArrayField state).getD "undefined"
  let xs := jPropList state f
  let pvAndNew : JVal × List JVal :=
    match intent.details.condition with
    | some cond =>
      (JVal.arr (JArr.ofList (xs.filter cond)), xs.filter (fun x => !cond x))
    | none =>
      match intent.details.itemIndex with
      | some ix =>
        let index : Int := if ix = -1 then (xs.length : Int) - 1 else ix
        (jIndex xs index, xs.take (normIdx xs.length index) ++ xs.drop (normIdx xs.length (index + 1)))
      | none => (JVal.undef, xs ++ xs)
  { success := true
    newState := some (jSpreadSet state f (JVal.arr (JArr.ofList pvAndNew.2)))
    mutation := some (createMutation artifact.id .remove_item [f] pvAndNew.1 source
      (some intent.originalMessage) mutId now) }

/-- `applyAddItem` (mutation-handler.ts:270-284).  A string value is wrapped
into a fresh `{id, title, completed}` item (its uuid fragment is the explicit
`itemUuid` argument); any other value is appended as-is (an absent value
appends `undefined`).  Note that the new item is passed to `createMutation`
in its `previousValue` position, exactly as in the source. -/
def applyAddItem (artifact : Artifact) (intent : MutationIntent) (source : Source)
    (itemUuid mutId : String) (now : Nat) : MutationResult :=
  let state := artifact.state
  let f := (findArrayField state).getD "undefined"
  let xs := jPropList state f
  let newItem : JVal :=
    match intent.details.value with
    | some (JVal.str s) =>
      JVal.obj (JObj.ofList [("id", JVal.str itemUuid), ("title", JVal.str s),
        ("completed", JVal.bool false)])
    | some v => v
    | none => JVal.undef
  { success := true
    newState := some (jSpreadSet state f (JVal.arr (JArr.ofList (xs ++ [newItem]))))
    mutation := some (createMutation artifact.id .add_item [f, toString xs.length] newItem source
      (some intent.originalMessage) mutId now) }

/-- `applyUpdateItem` (mutation-handler.ts:286-340).  Case 1 writes one
property into the element, case 2 merges an object value into it, case 3
(no property and no truthy non-array object value — note `null` is falsy and
`typeof null === 'object'` never gets to decide) is the explicit
ambiguous-intent error.  When `itemIndex` is absent the resolved index is
`undefined`: the element read yields `undefined`, and the write
`array[undefined] = item` only creates a stray property (see `jSetIndex`). -/
def applyUpdateItem (artifact : Artifact) (intent : MutationIntent) (source : Source)
    (mutId : String) (now : Nat) : MutationResult :=
  let state := artifact.state
  let f := (findArrayField state).getD "undefined"
  let xs := jPropList state f
  let index : Option Int :=
    match intent.details.itemIndex with
    | some ix => some (if ix = -1 then (xs.length : Int) - 1 else ix)
    | none => none
  let elem : JVal := match index with
    | some i => jIndex xs i
    | none => JVal.undef
  let updated : Option JVal :=
    match intent.details.property with
    | some p => some (jSpreadSet elem p ((intent.details.value).getD JVal.undef))
    | none =>
      match intent.details.value with
      | some (JVal.obj o) => some (jSpreadMerge elem (JVal.obj o))
      | _ => none
  match updated with
  | none =>
    { success := false
      error := some "Invalid update: value must be an object when no property is specified" }
  | some item =>
    let newArray := match index with
      | some i => jSetIndex xs i item
      | none => xs
    { success := true
      newState := some (jSpreadSet state f (JVal.arr (JArr.ofList newArray)))
      mutation := some (createMutation artifact.id .update_item
        [f, match index with | some i => toString i | none => "undefined"] elem source
        (some intent.originalMessage) mutId now) }

/-- `applyUpdateProperty` (mutation-handler.ts:342-352).  An absent property
name becomes the computed key `"undefined"` (JS `state[undefined]`). -/
def applyUpdateProperty (artifact : Artifact) (intent : MutationIntent) (source : Source)
    (mutId : String) (now : Nat) : MutationResult :=
  let state := artifact.state
  let p := (intent.details.property).getD "undefined"
  let previousValue := (jProp state p).getD JVal.undef
  { success := true
    newState := some (jSpreadSet state p ((intent.details.value).getD JVal.undef))
    mutation := some (createMutation artifact.id .update_property [p] previousValue source
      (some intent.originalMessage) mutId now) }

/-- `applyReorderItems` (mutation-handler.ts:354-370).  Splice-based move with
ECMA-262 index clamping; an absent `fromIndex`/noninteger `toIndex` coerces to
`0`, and splicing out of an empty array reinserts `undefined`.  The recorded
`previousValue` is the raw `{from, to}` pair, not the clamped indices. -/
def applyReorderItems (artifact : Artifact) (intent : MutationIntent) (source : Source)
    (mutId : String) (now : Nat) : MutationResult :=
  let state := artifact.state
  let f := (findArrayField state).getD "undefined"
  let xs := jPropList state f
  let fromIndex : Int := (intent.details.itemIndex).getD 0
  let toIndex : Int := jToInt intent.details.value
  let s1 := normIdx xs.length fromIndex
  let removed := (xs.drop s1).take 1
  let remaining := xs.take s1 ++ xs.drop (s1 + 1)
  let item : JVal := match removed with
    | [x] => x
    | _ => JVal.undef
  let s2 := normIdx remaining.length toIndex
  let newArray := remaining.take s2 ++ [item] ++ remaining.drop s2
  let fromJ : JVal := match intent.details.itemIndex with
    | some i => JVal.num i
    | none => JVal.undef
  let toJ : JVal := (intent.details.value).getD JVal.undef
  { success := true
    newState := some (jSpreadSet state f (JVal.arr (JArr.ofList newArray)))
    mutation := some (createMutation artifact.id .reorder_items [f]
      (JVal.obj (JObj.ofList [("from", fromJ), ("to", toJ)])) source
      (some intent.originalMessage) mutId now) }

/-- `applyMutation` (mutation-handler.ts:209-238).  Validation failure short
circuits with `{success: false, error}`.  The `try/catch` wrapper of the
source never fires: all branch operations are total on validated inputs (JS
array reads, writes, slices and spreads cannot throw), so the catch clause is
dead and has no counterpart here.  The `bulk_update` branch falls into the
`default:` unsupported-operation error.  `itemUuid`, `mutId` and `now` stand
for the uuid fragments and `Date.now()` drawn inside the call. -/
def applyMutation (artifact : Artifact) (intent : MutationIntent) (source : Source)
    (itemUuid mutId : String) (now : Nat) : MutationResult :=
  match validateMutation artifact intent with
  | some err => { success := false, error := some err }
  | none =>
    match intent.type with
    | .remove_item => applyRemoveItem artifact intent source mutId now
    | .add_item => applyAddItem artifact intent source itemUuid mutId now
    | .update_item => applyUpdateItem artifact intent source mutId now
    | .update_property => applyUpdateProperty artifact intent source mutId now
    | .reorder_items => applyReorderItems artifact intent source mutId now
    | .bulk_update => { success := false, error := some "Unsupported operation: bulk_update" }

/-! ## Artifact store (`src/lib/artifacts/store.ts`)

The zustand store becomes a record `Store`; each action is a pure state
transformer.  `Date.now()` and the `shortId()` / uuid draws are explicit
arguments of the actions that use them. -/

/-- JS record update `{...rec, [k]: v}` for a string-keyed record kept in
insertion order: an existing key keeps its position, a new key is appended. -/
def recordSet {α : Type} : List (String × α) → String → α → List (String × α)
  | [], k, v => [(k, v)]
  | (k2, v2) :: tl, k, v => if k2 = k then (k2, v) :: tl else (k2, v2) :: recordSet tl k v

/-- Stable insertion step for a descending sort; with `foldr` this models
`list.sort((a, b) => key(b) - key(a))` (JS sorts are stable, so any stable
descending sort is extensionally the same function). -/
def insertDescBy {α : Type} (key : α → Nat) (x : α) : List α → List α
  | [] => [x]
  | y :: ys => if key y ≤ key x then x :: y :: ys else y :: insertDescBy key x ys

def sortDescBy {α : Type} (key : α → Nat) (l : List α) : List α :=
  l.foldr (insertDescBy key) []

/-- Stable ascending counterpart, for `(a, b) => key(a) - key(b)`. -/
def insertAscBy {α : Type} (key : α → Nat) (x : α) : List α → List α
  | [] => [x]
  | y :: ys => if key x ≤ key y then x :: y :: ys else y :: insertAscBy key x ys

def sortAscBy {α : Type} (key : α → Nat) (l : List α) : List α :=
  l.foldr (insertAscBy key) []

/-- The store state (store.ts:70-98 state fields): the artifact record in key
insertion order, the mutation log, the relationship list, and the hydration
flag. -/
structure Store where
  artifacts : List (String × Artifact)
  mutations : List Mutation
  relationships : List Relationship
  hasHydrated : Bool
deriving DecidableEq, Repr

/-- `createArtifact` (store.ts:118-140); `id` is the `shortId()` draw and
`now` is `Date.now()`. -/
def createArtifact (type : String) (state : JVal) (title : Option String)
    (id : String) (now : Nat) (s : Store) : Artifact × Store :=
  let artifact : Artifact :=
    { id := id, type := type, state := state, title := title
      version := 1, createdAt := now, updatedAt := now, relatedIds := [] }
  (artifact, { s with artifacts := recordSet s.artifacts id artifact })

/-- `addArtifact` (store.ts:143-147). -/
def addArtifact (artifact : Artifact) (s : Store) : Store :=
  { s with artifacts := recordSet s.artifacts artifact.id artifact }

/-- `updateArtifact` (store.ts:150-167). -/
def updateArtifact (id : String) (newState : JVal) (now : Nat) (s : Store) : Store :=
  match s.artifacts.lookup id with
  | none => s
  | some artifact =>
    let updated := { artifact with state := newState, version := artifact.version + 1, updatedAt := now }
    { s with artifacts := recordSet s.artifacts id updated }

/-- `deleteArtifact` (store.ts:170-181): removes the id from the artifact
record and filters the mutation log and the relationship list. -/
def deleteArtifact (id : String) (s : Store) : Store :=
  { s with
    artifacts := s.artifacts.filter (fun p => p.1 != id)
    mutations := s.mutations.filter (fun m => m.artifactId != id)
    relationships := s.relationships.filter (fun r => r.sourceId != id && r.targetId != id) }

/-- `getArtifact` (store.ts:183). -/
def getArtifact (id : String) (s : Store) : Option Artifact :=
  s.artifacts.lookup id

/-- `getAllArtifacts` (store.ts:184): `Object.values`. -/
def getAllArtifacts (s : Store) : List Artifact :=
  s.artifacts.map Prod.snd

/-- `addMutation` (store.ts:187-203) for a caller that supplies a full record
(the facade always does: `applyMutation` results carry `id` and `timestamp`);
the field-by-field copy of the source preserves the record unchanged. -/
def addMutation (m : Mutation) (s : Store) : Store :=
  { s with mutations := s.mutations ++ [m] }

/-- `getMutations` (store.ts:205-207). -/
def getMutations (artifactId : String) (s : Store) : List Mutation :=
  s.mutations.filter (fun m => m.artifactId == artifactId)

/-- `undoLastMutation` (store.ts:210-237).  Note the write is
`state: lastMutation.previousValue` — the whole artifact state is replaced by
the recorded `previousValue`, whatever path that value was recorded at. -/
def undoLastMutation (artifactId : String) (now : Nat) (s : Store) : Bool × Store :=
  match s.artifacts.lookup artifactId with
  | none => (false, s)
  | some artifact =>
    match (s.mutations.filter (fun m => m.artifactId == artifactId)).getLast? with
    | none => (false, s)
    | some lastMutation =>
      if lastMutation.previousValue = JVal.undef then (false, s)
      else
        let reverted := { artifact with
          state := lastMutation.previousValue
          version := artifact.version + 1
          updatedAt := now }
        (true, { s with
          artifacts := recordSet s.artifacts artifactId reverted
          mutations := s.mutations.filter (fun m => m.id != lastMutation.id) })

/-- `addRelationship` (store.ts:240-269): the relationship is appended
unconditionally; only the `relatedIds` forward cache update is conditional on
the source artifact existing. -/
def addRelationship (sourceId targetId : String) (type : RelationType)
    (relId : String) (now : Nat) (s : Store) : Relationship × Store :=
  let relationship : Relationship :=
    { id := relId, sourceId := sourceId, targetId := targetId, type := type
      bidirectional := false, createdAt := now }
  let s1 := { s with relationships := s.relationships ++ [relationship] }
  match s1.artifacts.lookup sourceId with
  | none => (relationship, s1)
  | some sourceArtifact =>
    let linked := { sourceArtifact with relatedIds := sourceArtifact.relatedIds ++ [targetId] }
    (relationship, { s1 with artifacts := recordSet s1.artifacts sourceId linked })

/-- `getRelated` (store.ts:271-279): `.map(id => artifacts[id]).filter(Boolean)`. -/
def getRelated (artifactId : String) (s : Store) : List Artifact :=
  match s.artifacts.lookup artifactId with
  | none => []
  | some artifact => artifact.relatedIds.filterMap (fun rid => s.artifacts.lookup rid)

/-- `clear` (store.ts:281-283). -/
def clearStore (_s : Store) : Store :=
  { artifacts := [], mutations := [], relationships := [], hasHydrated := true }

/-- `setHydrated` (store.ts:285-287). -/
def setHydrated (value : Bool) (s : Store) : Store :=
  { s with hasHydrated := value }

mutual
/-- JS template-literal stringification `String(v)` of the values that can
appear as a fallback title (`Array.prototype.toString` joins with commas,
stringifying `null`/`undefined` elements as empty). -/
def jsToString : JVal → String
  | .null => "null"
  | .undef => "undefined"
  | .bool b => cond b "true" "false"
  | .num n => toString n
  | .str s => s
  | .arr xs => jsArrJoin xs
  | .obj _ => "[object Object]"
def jsArrJoin : JArr → String
  | .anil => ""
  | .acons v tl =>
    (match v with
      | .null => ""
      | .undef => ""
      | w => jsToString w) ++
    (match tl with
      | .anil => ""
      | t => "," ++ jsArrJoin t)
end

/-- The `a.title || (a.state as any).title || 'Untitled'` fallback chain of
`getContextString`, stringified as the template literal would. -/
def contextTitle (a : Artifact) : String :=
  let fallback : String :=
    match jProp a.state "title" with
    | some v => if jTruthy v then jsToString v else "Untitled"
    | none => "Untitled"
  match a.title with
  | some t => if t = "" then fallback else t
  | none => fallback

/-- `getContextString` (store.ts:289-315).  `fmtTime` stands for the
`toLocaleTimeString` rendering of a `createdAt` timestamp. -/
def getContextString (fmtTime : Nat → String) (s : Store) : String :=
  if !s.hasHydrated then "Artifacts are being loaded from storage..."
  else
    let artifactList := s.artifacts.map Prod.snd
    if artifactList.length = 0 then "No artifacts exist yet in this conversation."
    else
      let sorted := sortDescBy (fun a => a.createdAt) artifactList
      "Current artifacts in workspace:\n" ++
      String.intercalate "\n" (sorted.map (fun a =>
        "- " ++ a.id ++ ": " ++ a.type ++ " \"" ++ contextTitle a ++ "\" (v" ++
        toString a.version ++ ", created " ++ fmtTime a.createdAt ++ ")")) ++
      "\n\nWhen referencing artifacts, use exact IDs (e.g., \"" ++
      (match sorted.head? with | some a => a.id | none => "abc12345") ++ "\")."

/-! ## Reference resolver (`src/lib/artifacts/reference-resolver.ts`)

Regex machinery for the fixed patterns of `resolveReference`: literal and
case-insensitive prefix tests, substring scans, and the two capture scans
(`/\#([a-f0-9]{8})/i` and `/artifact\s+([a-f0-9]{8})/i`). -/

def startsWithL : List Char → List Char → Bool
  | [], _ => true
  | _ :: _, [] => false
  | p :: ps, c :: cs => p = c && startsWithL ps cs

def containsSubL (p : List Char) : List Char → Bool
  | [] => startsWithL p []
  | c :: tl => startsWithL p (c :: tl) || containsSubL p tl

/-- Case-insensitive prefix test: `p` is given lowercase, the subject is
lowered character by character (ASCII, as `toLowerCase` acts on these
patterns). -/
def startsWithCI : List Char → List Char → Bool
  | [], _ => true
  | _ :: _, [] => false
  | p :: ps, c :: cs => p = c.toLower && startsWithCI ps cs

/-- `/i`-flagged substring test of a lowercase literal pattern. -/
def testCI (p : String) (msg : List Char) : Bool :=
  containsSubL p.data (msg.map Char.toLower)

def isHexDigitCI (c : Char) : Bool :=
  ('0' ≤ c && c ≤ '9') || ('a' ≤ c && c ≤ 'f') || ('A' ≤ c && c ≤ 'F')

/-- JS `\s` on the ASCII inputs considered here. -/
def isJsSpace (c : Char) : Bool :=
  c = ' ' || c = '\t' || c = '\n' || c = '\r'

/-- JS `\w` word character `[A-Za-z0-9_]`. -/
def isWordChar (c : Char) : Bool :=
  ('a' ≤ c && c ≤ 'z') || ('A' ≤ c && c ≤ 'Z') || ('0' ≤ c && c ≤ '9') || c = '_'

/-- First match of `/\#([a-f0-9]{8})/i`: the first `#` followed by eight
case-insensitive hex digits; the capture (the eight digits, original case) is
returned.  A `#` whose continuation fails does not stop the scan at later
positions. -/
def findHashHexId : List Char → Option (List Char)
  | [] => none
  | c :: tl =>
    if c = '#' then
      if 8 ≤ tl.length && (tl.take 8).all isHexDigitCI then some (tl.take 8)
      else findHashHexId tl
    else findHashHexId tl

/-- First match of `/artifact\s+([a-f0-9]{8})/i`: the literal `artifact`
(case-insensitive), one or more whitespace characters (greedy; backtracking
cannot help since no hex digit is whitespace), then eight hex digits. -/
def findArtifactHexId : List Char → Option (List Char)
  | [] => none
  | c :: tl =>
    if startsWithCI "artifact".data (c :: tl) then
      let rest := (c :: tl).drop 8
      let wsn := (rest.takeWhile isJsSpace).length
      let afterWs := rest.drop wsn
      if 1 ≤ wsn && 8 ≤ afterWs.length && (afterWs.take 8).all isHexDigitCI then
        some (afterWs.take 8)
      else findArtifactHexId tl
    else findArtifactHexId tl

def typeKeywordList : List String :=
  ["plan", "roadmap", "checklist", "result", "status", "analysis"]

/-- First match of `/(?:the|that)\s+(plan|roadmap|checklist|result|status|analysis)/i`,
returning the captured keyword lowercased.  `the` and `that` cannot both match
at one position (they differ at the third character), whitespace is greedy and
no keyword starts with whitespace, and the keyword alternation takes the first
alternative that matches (no trailing context, so no backtracking). -/
def findTypeKeyword : List Char → Option String
  | [] => none
  | c :: tl =>
    let s := c :: tl
    let artLen : Option Nat :=
      if startsWithCI "the".data s then some 3
      else if startsWithCI "that".data s then some 4
      else none
    match artLen with
    | some n =>
      let rest := s.drop n
      let wsn := (rest.takeWhile isJsSpace).length
      let afterWs := rest.drop wsn
      if 1 ≤ wsn then
        match typeKeywordList.find? (fun k => startsWithCI k.data afterWs) with
        | some k => some k
        | none => findTypeKeyword tl
      else findTypeKeyword tl
    | none => findTypeKeyword tl

/-- One position of the `/\b(?:this|that|it)\b/i` test: some alternative is a
case-insensitive prefix here and is followed by a word boundary. -/
def demonstrativeAt (s : List Char) : Bool :=
  ["this", "that", "it"].any (fun w =>
    startsWithCI w.data s &&
      (match s.drop w.length with
        | [] => true
        | d :: _ => !isWordChar d))

def hasDemonstrativeAux : Bool → List Char → Bool
  | _, [] => false
  | prevIsWord, c :: tl =>
    (!prevIsWord && demonstrativeAt (c :: tl)) || hasDemonstrativeAux (isWordChar c) tl

/-- `/\b(?:this|that|it)\b/i.test(message)` (a match needs a non-word
character, or the string start, right before it). -/
def hasDemonstrative (s : List Char) : Bool :=
  hasDemonstrativeAux false s

/-- `keyword → type list` table of the type-based strategy
(reference-resolver, `typeMap`). -/
def typeMap (keyword : String) : List String :=
  if keyword = "plan" then ["ExecutionPlan"]
  else if keyword = "roadmap" then ["ExecutionPlan"]
  else if keyword = "checklist" then ["ExecutionPlan", "CommandResultPanel"]
  else if keyword = "result" then ["CommandResultPanel"]
  else if keyword = "status" then ["SystemStatusPanel"]
  else if keyword = "analysis" then ["CommandResultPanel"]
  else []

/-- `resolveReference` (reference-resolver.ts): the strategies in source
order, each falling through to the next on failure (`Option.orElse`
chaining reproduces the early returns). -/
def resolveReference (message : String) (artifacts : List (String × Artifact))
    (recentArtifactIds : List String) : Option String :=
  let artifactList := artifacts.map Prod.snd
  if artifactList.isEmpty then none
  else
    let msg := message.data
    let sortedByTime := sortDescBy (fun a => a.createdAt) artifactList
    let sortedAsc := sortAscBy (fun a => a.createdAt) artifactList
    let s1 : Option String :=
      match findHashHexId msg with
      | some cap =>
        let id := String.mk (cap.map Char.toLower)
        if (artifacts.lookup id).isSome then some id else none
      | none => none
    let s2 : Option String :=
      match findArtifactHexId msg with
      | some cap =>
        let id := String.mk (cap.map Char.toLower)
        if (artifacts.lookup id).isSome then some id else none
      | none => none
    let s3 : Option String :=
      if (testCI "first" msg || testCI "1st" msg) && 0 < artifactList.length then
        (sortedAsc[0]?).map (fun a => a.id)
      else none
    let s4 : Option String :=
      if (testCI "second" msg || testCI "2nd" msg) && 1 < artifactList.length then
        (sortedAsc[1]?).map (fun a => a.id)
      else none
    let s5 : Option String :=
      if (testCI "third" msg || testCI "3rd" msg) && 2 < artifactList.length then
        (sortedAsc[2]?).map (fun a => a.id)
      else none
    let s6 : Option String :=
      if testCI "last" msg || testCI "latest" msg || testCI "most recent" msg then
        (sortedByTime[0]?).map (fun a => a.id)
      else none
    let s7 : Option String :=
      if (testCI "previous" msg || testCI "prior" msg) && 1 < sortedByTime.length then
        (sortedByTime[1]?).map (fun a => a.id)
      else none
    let s8 : Option String :=
      match findTypeKeyword msg with
      | some keyword =>
        match sortedByTime.find? (fun a => (typeMap keyword).contains a.type) with
        | some a => some a.id
        | none => none
      | none => none
    let s9 : Option String :=
      if hasDemonstrative msg then
        match recentArtifactIds.getLast? with
        | some recentId =>
          if (artifacts.lookup recentId).isSome then some recentId
          else (sortedByTime[0]?).bind (fun a => if a.id = "" then none else some a.id)
        | none => (sortedByTime[0]?).bind (fun a => if a.id = "" then none else some a.id)
      else none
    s1 <|> s2 <|> s3 <|> s4 <|> s5 <|> s6 <|> s7 <|> s8 <|> s9

/-! ## Relationship detector (`src/lib/artifacts/relationship-detector.ts`)

The module-level `RELATIONSHIP_PATTERNS` regexes all carry the `g` flag, and
`inferRelationshipType` probes them with `.test()`.  In JavaScript a
`/g`-flagged regex object is stateful: `test` starts searching at the regex's
`lastIndex` property, sets it past the match on success and resets it to `0`
on failure.  We model this with an explicit list of `lastIndex` values, one
per pattern, threaded through the calls. -/

/-- A literal alternative of one of the pattern alternations; `optS` marks a
trailing `s?` (as in `references?`/`mentions?`), which only lengthens the
match when the next character is an `s` (greedy optional). -/
structure AltLit where
  lit : String
  optS : Bool := false
deriving DecidableEq, Repr

/-- One of the fixed relationship regexes: either the explicit-id pattern
`/#([a-z0-9]{6,10})/gi` or an alternation of literal phrases. -/
inductive RelPattern where
  | hash
  | alts (alternatives : List AltLit)
deriving DecidableEq, Repr

/-- `[a-z0-9]` under the `i` flag. -/
def isRelIdChar (c : Char) : Bool :=
  ('a' ≤ c && c ≤ 'z') || ('A' ≤ c && c ≤ 'Z') || ('0' ≤ c && c ≤ '9')

def tryAltAt (a : AltLit) (s : List Char) : Option Nat :=
  if startsWithL a.lit.data s then
    if a.optS && (s.drop a.lit.length).head? = some 's' then some (a.lit.length + 1)
    else some a.lit.length
  else none

/-- Match length of a pattern anchored at the head of `s` (JS alternation
takes the first alternative that matches; `{6,10}` is greedy with nothing
after it, so it takes `min run 10` id characters and needs at least 6). -/
def tryPatternAt : RelPattern → List Char → Option Nat
  | .alts as, s => as.findSome? (fun a => tryAltAt a s)
  | .hash, [] => none
  | .hash, c :: tl =>
    if c = '#' then
      let run := (tl.takeWhile isRelIdChar).length
      if 6 ≤ run then some (1 + min run 10) else none
    else none

/-- Leftmost match of a pattern in `s`, as `(start, end)` offsets. -/
def findMatchFrom (p : RelPattern) (i : Nat) : List Char → Option (Nat × Nat)
  | [] =>
    match tryPatternAt p [] with
    | some len => some (i, i + len)
    | none => none
  | c :: tl =>
    match tryPatternAt p (c :: tl) with
    | some len => some (i, i + len)
    | none => findMatchFrom p (i + 1) tl

/-- `regex.test(s)` for a `/g`-flagged regex with current `lastIndex`:
search starts at `lastIndex`; success moves `lastIndex` past the match,
failure resets it to `0`. -/
def testG (p : RelPattern) (s : List Char) (lastIndex : Nat) : Bool × Nat :=
  match findMatchFrom p 0 (s.drop lastIndex) with
  | some r => (true, lastIndex + r.2)
  | none => (false, 0)

/-- `RELATIONSHIP_PATTERNS` (relationship-detector.ts:14-32), in source
order. -/
def RELATIONSHIP_PATTERNS : List (RelPattern × RelationType) :=
  [(.hash, .references),
   (.alts [⟨"depends on", false⟩, ⟨"requires", false⟩, ⟨"needs", false⟩,
           ⟨"relies on", false⟩, ⟨"based on", false⟩], .depends_on),
   (.alts [⟨"derived from", false⟩, ⟨"created from", false⟩, ⟨"built from", false⟩,
           ⟨"extracted from", false⟩], .derived_from),
   (.alts [⟨"conflicts with", false⟩, ⟨"contradicts", false⟩, ⟨"incompatible with", false⟩,
           ⟨"overrides", false⟩], .conflicts_with),
   (.alts [⟨"reference", true⟩, ⟨"mention", true⟩, ⟨"refers to", false⟩,
           ⟨"see also", false⟩, ⟨"related to", false⟩], .references),
   (.alts [⟨"similar to", false⟩, ⟨"like", false⟩, ⟨"same as", false⟩,
           ⟨"equivalent to", false⟩], .similar_to)]

/-- The `lastIndex` values of the six module-level regexes; all `0` when the
module is freshly loaded. -/
def freshRegexState : List Nat := [0, 0, 0, 0, 0, 0]

def inferAux (msg : List Char) : List (RelPattern × RelationType) → List Nat →
    RelationType × List Nat
  | [], _ => (.references, [])
  | _ :: _, [] => (.references, [])
  | (p, t) :: ps, li :: lis =>
    let r := testG p msg li
    if r.1 then (t, r.2 :: lis)
    else
      let rest := inferAux msg ps lis
      (rest.1, r.2 :: rest.2)

/-- `inferRelationshipType` (relationship-detector.ts:120-130): lowercase the
message, probe the stateful patterns in order, first hit wins, default
`references`.  Returns the inferred type together with the new regex state. -/
def inferRelationshipType (message : String) (st : List Nat) : RelationType × List Nat :=
  inferAux (message.data.map Char.toLower) RELATIONSHIP_PATTERNS st

/-- All matches of a fresh `/#([a-z0-9]{6,10})/gi` under an `exec` loop: each
match captures up to ten id characters and the scan resumes right after them
(`skip` counts the characters of the current match still to be stepped
over). -/
def scanHashIdsAux : Nat → List Char → List (List Char)
  | _, [] => []
  | skip + 1, _ :: tl => scanHashIdsAux skip tl
  | 0, c :: tl =>
    if c = '#' then
      let run := tl.takeWhile isRelIdChar
      if 6 ≤ run.length then
        run.take 10 :: scanHashIdsAux (min run.length 10) tl
      else scanHashIdsAux 0 tl
    else scanHashIdsAux 0 tl

def scanHashIds (s : List Char) : List (List Char) :=
  scanHashIdsAux 0 s

/-- `[...new Set(xs)]`: deduplicate keeping first occurrences. -/
def jsSetDedupAux (seen : List String) : List String → List String
  | [] => []
  | x :: tl => if seen.contains x then jsSetDedupAux seen tl
               else x :: jsSetDedupAux (x :: seen) tl

def jsSetDedup (l : List String) : List String :=
  jsSetDedupAux [] l

/-- `detectExplicitReferences` (relationship-detector.ts:57-73): every
`#`-token whose captured id (original case) is a key of the artifact record,
deduplicated. -/
def detectExplicitReferences (message : String)
    (artifacts : List (String × Artifact)) : List String :=
  jsSetDedup (((scanHashIds message.data).map String.mk).filter
    (fun id => (artifacts.lookup id).isSome))

/-- The `typePatterns` table of `detectTypeReferences`. -/
def typePatternsTable (t : String) : List String :=
  if t = "ExecutionPlan" then ["plan", "deployment plan", "execution plan", "roadmap", "checklist"]
  else if t = "SystemStatusPanel" then ["status", "health", "system status", "status panel"]
  else if t = "CommandResultPanel" then ["result", "analysis", "output", "command result"]
  else if t = "RiskMatrix" then ["risk", "risks", "risk matrix", "risk assessment"]
  else []

def articlePatterns : List String := ["the ", "that ", "this ", "my ", "our "]

/-- One artifact's hit test in `detectTypeReferences`: the per-pattern body
first tries every article+pattern pair against the lowercased message, then
falls back to a literal (truthy) title substring check; the title check sits
inside the pattern loop, so an artifact of an unknown type (empty pattern
list) is never title-matched. -/
def typeRefHit (lmsg : List Char) (a : Artifact) : Bool :=
  (typePatternsTable a.type).any (fun pat =>
    articlePatterns.any (fun art => containsSubL (art ++ pat).data lmsg) ||
    (match a.title with
      | some t => !(t = "") && containsSubL (t.data.map Char.toLower) lmsg
      | none => false))

/-- `detectTypeReferences` (relationship-detector.ts:79-115). -/
def detectTypeReferences (message : String)
    (artifacts : List (String × Artifact)) : List String :=
  let lmsg := message.data.map Char.toLower
  jsSetDedup ((artifacts.filter (fun p => typeRefHit lmsg p.2)).map Prod.fst)

/-- `DetectedRelationship` (relationship-detector.ts:6-11). -/
structure DetectedRelationship where
  sourceId : String
  targetId : String
  type : RelationType
  reason : String
deriving DecidableEq, Repr

/-- `detectRelationships` (relationship-detector.ts:135-177).  When no
artifact is referenced it returns early and the regex state is untouched;
otherwise `inferRelationshipType` runs once and stamps every produced edge
with the inferred type.  A present but empty-string source id is falsy in
JS, hence the explicit `srcId = ""` test. -/
def detectRelationships (message : String) (sourceArtifactId : Option String)
    (artifacts : List (String × Artifact)) (st : List Nat) :
    List DetectedRelationship × List Nat :=
  let explicitRefs := detectExplicitReferences message artifacts
  let typeRefs := detectTypeReferences message artifacts
  let allRefs := jsSetDedup (explicitRefs ++ typeRefs)
  if allRefs.isEmpty then ([], st)
  else
    let r := inferRelationshipType message st
    let chain : List DetectedRelationship :=
      if 2 ≤ allRefs.length then
        (allRefs.zip allRefs.tail).map (fun p =>
          DetectedRelationship.mk p.1 p.2 r.1 "Both referenced in message")
      else []
    let edges : List DetectedRelationship :=
      match sourceArtifactId with
      | some srcId =>
        if !(srcId = "") && (artifacts.lookup srcId).isSome then
          (allRefs.filter (fun t => t != srcId)).map (fun targetId =>
            DetectedRelationship.mk srcId targetId r.1
              ("Detected from message: \"" ++ String.mk (message.data.take 50) ++ "...\""))
        else chain
      | none => chain
    (edges, r.2)

/-! ## Specification-side characterisation of the relationship-verb table

Independent containment predicates, used to state what the pattern table
recognises without mentioning the scanner machinery. -/

/-- The message contains a `#` followed by at least six `[a-z0-9i]`-class id
characters somewhere (the shape the explicit-id pattern fires on). -/
def relIdRefIn : List Char → Bool
  | [] => false
  | c :: tl => (c = '#' && 6 ≤ (tl.takeWhile isRelIdChar).length) || relIdRefIn tl

def phraseIn (p : String) (m : List Char) : Bool :=
  containsSubL p.data m

def dependsPhrases : List String := ["depends on", "requires", "needs", "relies on", "based on"]
def derivedPhrases : List String := ["derived from", "created from", "built from", "extracted from"]
def conflictPhrases : List String := ["conflicts with", "contradicts", "incompatible with", "overrides"]
def referencePhrases : List String := ["reference", "mention", "refers to", "see also", "related to"]
def similarPhrases : List String := ["similar to", "like", "same as", "equivalent to"]

/-- The relationship type dictated by the source's ordered pattern table,
phrased as plain substring containment on the lowercased message: the
explicit-id pattern comes first and yields `references`, then the dependency,
derivation and conflict phrase groups, then the reference-language group
(also `references`), then similarity, with `references` as the default. -/
def specInferredType (message : String) : RelationType :=
  let m := message.data.map Char.toLower
  if relIdRefIn m then .references
  else if dependsPhrases.any (fun p => phraseIn p m) then .depends_on
  else if derivedPhrases.any (fun p => phraseIn p m) then .derived_from
  else if conflictPhrases.any (fun p => phraseIn p m) then .conflicts_with
  else if referencePhrases.any (fun p => phraseIn p m) then .references
  else if similarPhrases.any (fun p => phraseIn p m) then .similar_to
  else .references

/-! ## Generic lemmas about the embedded record and list operations -/

theorem recordSet_lookup_self {α : Type} (l : List (String × α)) (k : String) (v : α) :
    (recordSet l k v).lookup k = some v := by
  induction l with
  | nil => simp [recordSet, List.lookup]
  | cons h t ih =>
    obtain ⟨k2, v2⟩ := h
    by_cases hk : k2 = k
    · subst hk
      simp [recordSet, List.lookup]
    · have hbeq : (k == k2) = false := by
        simp [Ne.symm hk]
      simp [recordSet, hk, List.lookup, hbeq, ih]

theorem recordSet_lookup_ne {α : Type} (l : List (String × α)) (k k2 : String) (v : α)
    (h : k2 ≠ k) : (recordSet l k v).lookup k2 = l.lookup k2 := by
  induction l with
  | nil =>
    have hbeq : (k2 == k) = false := by simp [h]
    simp [recordSet, List.lookup, hbeq]
  | cons hd t ih =>
    obtain ⟨k3, v3⟩ := hd
    by_cases hk : k3 = k
    · subst hk
      have hbeq : (k2 == k3) = false := by simp [h]
      simp [recordSet, List.lookup, hbeq]
    · by_cases hk2 : k2 = k3
      · subst hk2
        simp [recordSet, hk, List.lookup]
      · have hbeq : (k2 == k3) = false := by simp [hk2]
        simp [recordSet, hk, List.lookup, hbeq, ih]

/-! ## C4: version accounting -/

/-- A sequence of `updateArtifact` calls on one artifact (each entry carries
the new state and the `Date.now()` of that call). -/
def applyUpdateList (id : String) (l : List (JVal × Nat)) (s : Store) : Store :=
  l.foldl (fun st p => updateArtifact id p.1 p.2 st) s

theorem updateArtifact_lookup (s : Store) (id : String) (ns : JVal) (now : Nat) (a : Artifact)
    (h : s.artifacts.lookup id = some a) :
    (updateArtifact id ns now s).artifacts.lookup id =
      some { a with state := ns, version := a.version + 1, updatedAt := now } := by
  simp [updateArtifact, h, recordSet_lookup_self]

theorem applyUpdateList_version (id : String) :
    ∀ (l : List (JVal × Nat)) (s : Store) (a : Artifact),
      s.artifacts.lookup id = some a →
      ∃ a', (applyUpdateList id l s).artifacts.lookup id = some a' ∧
        a'.version = a.version + l.length := by
  intro l
  induction l with
  | nil =>
    intro s a h
    exact ⟨a, h, rfl⟩
  | cons p t ih =>
    intro s a h
    have h1 := updateArtifact_lookup s id p.1 p.2 a h
    obtain ⟨a', ha', hv⟩ := ih (updateArtifact id p.1 p.2 s) _ h1
    refine ⟨a', ?_, ?_⟩
    · simpa [applyUpdateList] using ha'
    · simp [hv]
      omega

/-- C4: for every artifact present in the store, a sequence of `N` successful
mutations (`updateArtifact` calls) leaves `version` exactly `N` higher;
`createArtifact` starts `version` at `1`; and a successful `undoLastMutation`
also increments `version` by exactly `1` instead of restoring the
pre-mutation version number. -/
theorem C4_version_accounting
    (ty : String) (st0 : JVal) (title : Option String) (newId : String) (now : Nat)
    (sc s : Store) (l : List (JVal × Nat)) (id : String) (a : Artifact) (now2 : Nat)
    (h : s.artifacts.lookup id = some a) :
    (createArtifact ty st0 title newId now sc).1.version = 1 ∧
    (∃ a', (applyUpdateList id l s).artifacts.lookup id = some a' ∧
      a'.version = a.version + l.length) ∧
    ((undoLastMutation id now2 s).1 = true →
      ∃ a'', (undoLastMutation id now2 s).2.artifacts.lookup id = some a'' ∧
        a''.version = a.version + 1) := by
  refine ⟨rfl, applyUpdateList_version id l s a h, ?_⟩
  intro hs
  unfold undoLastMutation at hs ⊢
  rw [h] at hs ⊢
  cases hm : (s.mutations.filter (fun m => m.artifactId == id)).getLast? with
  | none => rw [hm] at hs; simp at hs
  | some lastMutation =>
    rw [hm] at hs
    by_cases hpv : lastMutation.previousValue = JVal.undef
    · simp [hpv] at hs
    · simp [hpv, recordSet_lookup_self]

def c4Artifact : Artifact :=
  { id := "abc12345", type := "ExecutionPlan", state := JVal.null
    version := 1, createdAt := 10, updatedAt := 10 }

def c4Mut : Mutation :=
  { id := "m1", artifactId := "abc12345", operation := .update_property, path := ["title"]
    previousValue := JVal.str "old", timestamp := 11, source := .user }

def c4Store : Store :=
  { artifacts := [("abc12345", c4Artifact)], mutations := [c4Mut]
    relationships := [], hasHydrated := true }

/-- Witness for C4 at a concrete store, with two updates and one undo. -/
theorem C4_version_accounting_witness :
    c4Store.artifacts.lookup "abc12345" = some c4Artifact ∧
    ((createArtifact "T" JVal.null none "n1" 1 c4Store).1.version = 1 ∧
     (∃ a', (applyUpdateList "abc12345" [(JVal.num 1, 12), (JVal.num 2, 13)] c4Store).artifacts.lookup "abc12345" = some a' ∧
       a'.version = c4Artifact.version + ([(JVal.num 1, 12), (JVal.num 2, 13)] : List (JVal × Nat)).length) ∧
     ((undoLastMutation "abc12345" 14 c4Store).1 = true →
       ∃ a'', (undoLastMutation "abc12345" 14 c4Store).2.artifacts.lookup "abc12345" = some a'' ∧
         a''.version = c4Artifact.version + 1)) :=
  ⟨by decide,
   C4_version_accounting "T" JVal.null none "n1" 1 c4Store c4Store
     [(JVal.num 1, 12), (JVal.num 2, 13)] "abc12345" c4Artifact 14 (by decide)⟩

/-! ## C2: deleteArtifact and the relationship list -/

theorem filterKey_lookup_self (id : String) (l : List (String × Artifact)) :
    (l.filter (fun p => p.1 != id)).lookup id = none := by
  induction l with
  | nil => simp [List.lookup]
  | cons hd t ih =>
    obtain ⟨k, v⟩ := hd
    by_cases hk : k = id
    · simp [hk, List.filter, ih]
    · have hb : (k != id) = true := by simp [hk]
      have hbeq : (id == k) = false := by simp [Ne.symm hk]
      simp [List.filter, hb, List.lookup, hbeq, ih]

theorem filterKey_lookup_ne (id k2 : String) (h : k2 ≠ id) (l : List (String × Artifact)) :
    (l.filter (fun p => p.1 != id)).lookup k2 = l.lookup k2 := by
  induction l with
  | nil => simp
  | cons hd t ih =>
    obtain ⟨k, v⟩ := hd
    by_cases hk : k = id
    · subst hk
      have hbeq : (k2 == k) = false := by simp [h]
      simp [List.filter, List.lookup, hbeq, ih]
    · have hb : (k != id) = true := by simp [hk]
      by_cases hk2 : k2 = k
      · subst hk2
        simp [List.filter, hb, List.lookup]
      · have hbeq : (k2 == k) = false := by simp [hk2]
        simp [List.filter, hb, List.lookup, hbeq, ih]

def c2Artifact : Artifact :=
  { id := "aaaa1111", type := "ExecutionPlan", state := JVal.null
    version := 1, createdAt := 1, updatedAt := 1 }

def c2Edge : Relationship :=
  { id := "r1", sourceId := "aaaa1111", targetId := "bbbb2222", type := .references
    bidirectional := false, createdAt := 5 }

def c2Store : Store :=
  { artifacts := [("aaaa1111", c2Artifact)], mutations := []
    relationships := [c2Edge], hasHydrated := true }

/-- C2 counterexample: the claim says relationship edges touching a deleted
artifact remain in the store, but `deleteArtifact` filters them out: deleting
`"aaaa1111"` from a store whose only relationship has it as `sourceId`
leaves an empty relationship list. -/
theorem C2_delete_keeps_relationships_counterexample :
    c2Store.relationships = [c2Edge] ∧
    (deleteArtifact "aaaa1111" c2Store).relationships = [] := by
  decide

/-- C2 amended: `deleteArtifact id` removes the artifact and every mutation
owned by `id`, and it also cascades to relationships — every edge whose
`sourceId` or `targetId` equals `id` is removed, all other records and
artifacts are untouched. -/
theorem C2_deleteArtifact_frame (s : Store) (id : String) :
    (∀ r : Relationship, r ∈ (deleteArtifact id s).relationships ↔
      r ∈ s.relationships ∧ r.sourceId ≠ id ∧ r.targetId ≠ id) ∧
    (∀ m : Mutation, m ∈ (deleteArtifact id s).mutations ↔
      m ∈ s.mutations ∧ m.artifactId ≠ id) ∧
    getArtifact id (deleteArtifact id s) = none ∧
    (∀ k, k ≠ id → getArtifact k (deleteArtifact id s) = getArtifact k s) ∧
    (deleteArtifact id s).hasHydrated = s.hasHydrated := by
  refine ⟨?_, ?_, ?_, ?_, rfl⟩
  · intro r
    simp [deleteArtifact, List.mem_filter, and_assoc]
  · intro m
    simp [deleteArtifact, List.mem_filter]
  · simp [deleteArtifact, getArtifact, filterKey_lookup_self]
  · intro k hk
    simp [deleteArtifact, getArtifact, filterKey_lookup_ne id k hk]

/-- Witness for the amended C2 at the concrete counterexample store. -/
theorem C2_deleteArtifact_frame_witness :
    (c2Edge ∈ (deleteArtifact "aaaa1111" c2Store).relationships ↔
      c2Edge ∈ c2Store.relationships ∧ c2Edge.sourceId ≠ "aaaa1111" ∧
        c2Edge.targetId ≠ "aaaa1111") ∧
    getArtifact "aaaa1111" (deleteArtifact "aaaa1111" c2Store) = none ∧
    getArtifact "zzzz" (deleteArtifact "aaaa1111" c2Store) = getArtifact "zzzz" c2Store := by
  have h := C2_deleteArtifact_frame c2Store "aaaa1111"
  exact ⟨h.1 c2Edge, h.2.2.1, h.2.2.2.1 "zzzz" (by decide)⟩

/-! ## C7: operations on unknown artifact ids -/

theorem filterKey_of_lookup_none (id : String) (l : List (String × Artifact))
    (h : l.lookup id = none) : l.filter (fun p => p.1 != id) = l := by
  induction l with
  | nil => rfl
  | cons hd t ih =>
    obtain ⟨k, v⟩ := hd
    by_cases hk : id = k
    · subst hk
      simp [List.lookup] at h
    · have hbeq : (id == k) = false := by simp [hk]
      simp only [List.lookup, hbeq] at h
      have hb : (k != id) = true := by simp [Ne.symm hk]
      simp [List.filter, hb, ih h]

def c7Store : Store :=
  { artifacts := [], mutations := [], relationships := [], hasHydrated := true }

/-- C7 counterexample: `addRelationship` invoked with an unknown source id is
not a no-op — the relationship record is appended to the store even though
neither id exists. -/
theorem C7_unknown_id_counterexample :
    getArtifact "aaaa0001" c7Store = none ∧
    getArtifact "bbbb0002" c7Store = none ∧
    (addRelationship "aaaa0001" "bbbb0002" RelationType.references "r1" 7 c7Store).2.relationships =
      [{ id := "r1", sourceId := "aaaa0001", targetId := "bbbb0002",
         type := RelationType.references, bidirectional := false, createdAt := 7 }] ∧
    c7Store.relationships = [] := by
  decide

/-- C7 amended: on an id absent from the artifact record, `updateArtifact`
and `undoLastMutation` are exact no-ops returning the soft failure,
`getArtifact`/`getRelated` return `undefined`/empty, and `deleteArtifact`
leaves the artifact record unchanged (it still prunes orphan mutation or
relationship records naming that id); `addRelationship`, however, always
appends and returns the new edge, only skipping the `relatedIds` cache
update.  All operations are total — none throws. -/
theorem C7_unknown_id_soft (s : Store) (id tgt relId : String) (ns : JVal)
    (now now2 now3 : Nat) (ty : RelationType)
    (h : s.artifacts.lookup id = none) :
    updateArtifact id ns now s = s ∧
    undoLastMutation id now2 s = (false, s) ∧
    getArtifact id s = none ∧
    getRelated id s = [] ∧
    (deleteArtifact id s).artifacts = s.artifacts ∧
    (addRelationship id tgt ty relId now3 s).2.artifacts = s.artifacts ∧
    (addRelationship id tgt ty relId now3 s).2.relationships =
      s.relationships ++ [(addRelationship id tgt ty relId now3 s).1] := by
  refine ⟨?_, ?_, h, ?_, ?_, ?_, ?_⟩
  · simp [updateArtifact, h]
  · simp [undoLastMutation, h]
  · simp [getRelated, h]
  · simp [deleteArtifact, filterKey_of_lookup_none id s.artifacts h]
  · simp [addRelationship, h]
  · simp [addRelationship, h]

/-- Witness for the amended C7 on an empty store. -/
theorem C7_unknown_id_soft_witness :
    c7Store.artifacts.lookup "aaaa0001" = none ∧
    (updateArtifact "aaaa0001" (JVal.num 5) 20 c7Store = c7Store ∧
     undoLastMutation "aaaa0001" 21 c7Store = (false, c7Store) ∧
     getArtifact "aaaa0001" c7Store = none ∧
     getRelated "aaaa0001" c7Store = [] ∧
     (deleteArtifact "aaaa0001" c7Store).artifacts = c7Store.artifacts ∧
     (addRelationship "aaaa0001" "bbbb0002" RelationType.references "r1" 7 c7Store).2.artifacts = c7Store.artifacts ∧
     (addRelationship "aaaa0001" "bbbb0002" RelationType.references "r1" 7 c7Store).2.relationships =
       c7Store.relationships ++ [(addRelationship "aaaa0001" "bbbb0002" RelationType.references "r1" 7 c7Store).1]) :=
  ⟨by decide,
   C7_unknown_id_soft c7Store "aaaa0001" "bbbb0002" "r1" (JVal.num 5) 20 21 7
     RelationType.references (by decide)⟩

/-! ## C9: reads before hydration -/

def c9Unhydrated : Store :=
  { artifacts := [], mutations := [], relationships := [], hasHydrated := false }

/-- C9 counterexample: not every read reports a loading state before
hydration.  `getAllArtifacts` on a not-yet-hydrated store returns the plain
current list — here `[]`, exactly what a hydrated empty workspace returns —
and `getArtifact` returns `undefined`; neither read is distinguishable from
the empty/default state. -/
theorem C9_unhydrated_reads_counterexample :
    c9Unhydrated.hasHydrated = false ∧
    getAllArtifacts c9Unhydrated = [] ∧
    getAllArtifacts (setHydrated true c9Unhydrated) = [] ∧
    getArtifact "abc12345" c9Unhydrated = none := by
  decide

/-- C9 amended: only `getContextString` guards on hydration — before
hydration it returns the loading message instead of reporting an empty
workspace; `getAllArtifacts` and `getArtifact` ignore `hasHydrated`
entirely and report the current (possibly empty) contents. -/
theorem C9_hydration_guard (s : Store) (fmt : Nat → String) (b : Bool) (id : String) :
    (s.hasHydrated = false →
      getContextString fmt s = "Artifacts are being loaded from storage...") ∧
    getAllArtifacts { s with hasHydrated := b } = getAllArtifacts s ∧
    getArtifact id { s with hasHydrated := b } = getArtifact id s := by
  refine ⟨?_, rfl, rfl⟩
  intro h
  simp [getContextString, h]

/-- Witness for the amended C9 on the concrete unhydrated store. -/
theorem C9_hydration_guard_witness :
    getContextString (fun _ => "10:00 AM") c9Unhydrated =
      "Artifacts are being loaded from storage..." ∧
    getAllArtifacts { c9Unhydrated with hasHydrated := true } = getAllArtifacts c9Unhydrated := by
  have h := C9_hydration_guard c9Unhydrated (fun _ => "10:00 AM") true "abc12345"
  exact ⟨h.1 (by decide), h.2.1⟩

/-! ## C1: undo does not restore the mutated path -/

def c1Step1 : JVal :=
  JVal.obj (JObj.ofList [("action", JVal.str "Design"), ("description", JVal.str "d1"),
    ("estimated_time", JVal.str "1h")])

def c1Step2 : JVal :=
  JVal.obj (JObj.ofList [("action", JVal.str "Build"), ("description", JVal.str "d2"),
    ("estimated_time", JVal.str "2h")])

def c1State0 : JVal :=
  JVal.obj (JObj.ofList [("title", JVal.str "Plan"),
    ("steps", JVal.arr (JArr.ofList [c1Step1, c1Step2]))])

def c1Artifact : Artifact :=
  { id := "abc12345", type := "ExecutionPlan", state := c1State0
    version := 1, createdAt := 10, updatedAt := 10 }

def c1Intent : MutationIntent :=
  { type := .remove_item, artifactId := "abc12345"
    details := { itemIndex := some 1 }, originalMessage := "remove step 2" }

def c1Result : MutationResult :=
  applyMutation c1Artifact c1Intent .user "u1" "m1" 11

def c1Store0 : Store :=
  { artifacts := [("abc12345", c1Artifact)], mutations := [], relationships := []
    hasHydrated := true }

/-- The facade call sequence after a successful `applyMutation`
(use-artifact-system.ts: `updateArtifact(artifactId, result.newState)` then
`addMutation(result.mutation)`). -/
def c1Store1 : Store :=
  match c1Result.newState, c1Result.mutation with
  | some ns, some m => addMutation m (updateArtifact "abc12345" ns 11 c1Store0)
  | _, _ => c1Store0

def c1Undo : Bool × Store :=
  undoLastMutation "abc12345" 12 c1Store1

/-- C1: evaluation at the failing input.  Removing step 2 of a two-step
`ExecutionPlan` records the removed element as `previousValue` at path
`["steps"]`; the subsequent `undoLastMutation` succeeds and removes the
mutation record, but writes `previousValue` over the whole artifact state
(`state: lastMutation.previousValue`): afterwards the state is the removed
step object itself — `steps` is not restored and the unrelated `title` field
is destroyed — instead of the original state `c1State0`. -/
theorem C1_undo_full_state_replace :
    c1Result.success = true ∧
    (c1Result.mutation).map Mutation.path = some ["steps"] ∧
    (c1Result.mutation).map Mutation.previousValue = some c1Step2 ∧
    c1Undo.1 = true ∧
    c1Undo.2.mutations = [] ∧
    (getArtifact "abc12345" c1Undo.2).map Artifact.state = some c1Step2 ∧
    jProp c1State0 "title" = some (JVal.str "Plan") ∧
    (getArtifact "abc12345" c1Undo.2).map (fun a => jProp a.state "title") = some none ∧
    (getArtifact "abc12345" c1Undo.2).map Artifact.state ≠ some c1State0 := by
  decide

/-! ## C5: condition-based removal removes all matches at once -/

/-- C5: a `remove_item` intent carrying a condition predicate removes every
element satisfying the predicate in one `applyMutation` call, and the
resulting Mutation record's `previousValue` is exactly the full list of
removed elements. -/
theorem C5_remove_item_condition (a : Artifact) (i : MutationIntent) (src : Source)
    (uuid mid : String) (now : Nat) (f : String) (xs : List JVal) (cond : JVal → Bool)
    (hf : findArrayField a.state = some f)
    (hxs : jProp a.state f = some (JVal.arr (JArr.ofList xs)))
    (hty : i.type = .remove_item)
    (hcond : i.details.condition = some cond) :
    (applyMutation a i src uuid mid now).success = true ∧
    (applyMutation a i src uuid mid now).newState =
      some (jSpreadSet a.state f (JVal.arr (JArr.ofList (xs.filter (fun x => !cond x))))) ∧
    ((applyMutation a i src uuid mid now).mutation).map Mutation.previousValue =
      some (JVal.arr (JArr.ofList (xs.filter cond))) := by
  have hvalid : validateMutation a i = none := by
    cases hidx : i.details.itemIndex with
    | none => simp [validateMutation, hty, hf, hxs, isArrayProp, hidx, hcond]
    | some ix => simp [validateMutation, hty, hf, hxs, isArrayProp, hidx, hcond]
  have happ : applyMutation a i src uuid mid now = applyRemoveItem a i src mid now := by
    simp [applyMutation, hvalid, hty]
  rw [happ]
  simp [applyRemoveItem, hf, hcond, jPropList, hxs, createMutation]

def c5S1 : JVal := JVal.obj (JObj.ofList [("action", JVal.str "a1"), ("status", JVal.str "complete")])
def c5S2 : JVal := JVal.obj (JObj.ofList [("action", JVal.str "a2"), ("status", JVal.str "pending")])
def c5S3 : JVal := JVal.obj (JObj.ofList [("action", JVal.str "a3"), ("status", JVal.str "complete")])

def c5State : JVal :=
  JVal.obj (JObj.ofList [("title", JVal.str "Plan"),
    ("steps", JVal.arr (JArr.ofList [c5S1, c5S2, c5S3]))])

def c5Artifact : Artifact :=
  { id := "def45678", type := "ExecutionPlan", state := c5State
    version := 1, createdAt := 10, updatedAt := 10 }

def c5Intent : MutationIntent :=
  { type := .remove_item, artifactId := "def45678"
    details := { condition := some removeCompletedCondition }
    originalMessage := "remove completed" }

/-- Witness for C5: "remove completed" on an ExecutionPlan with steps
`[complete, pending, complete]` removes both complete steps in one operation
and stores both as `previousValue`. -/
theorem C5_remove_item_condition_witness :
    findArrayField c5State = some "steps" ∧
    ((applyMutation c5Artifact c5Intent .user "u1" "m1" 11).success = true ∧
     (applyMutation c5Artifact c5Intent .user "u1" "m1" 11).newState =
       some (jSpreadSet c5State "steps"
         (JVal.arr (JArr.ofList ([c5S1, c5S2, c5S3].filter (fun x => !removeCompletedCondition x))))) ∧
     ((applyMutation c5Artifact c5Intent .user "u1" "m1" 11).mutation).map Mutation.previousValue =
       some (JVal.arr (JArr.ofList ([c5S1, c5S2, c5S3].filter removeCompletedCondition)))) ∧
    [c5S1, c5S2, c5S3].filter removeCompletedCondition = [c5S1, c5S3] ∧
    [c5S1, c5S2, c5S3].filter (fun x => !removeCompletedCondition x) = [c5S2] :=
  ⟨by decide,
   C5_remove_item_condition c5Artifact c5Intent .user "u1" "m1" 11 "steps"
     [c5S1, c5S2, c5S3] removeCompletedCondition (by decide) (by decide) rfl rfl,
   by decide, by decide⟩

/-! ## C8: no partial results from applyMutation -/

theorem applyUpdateItem_shape (a : Artifact) (i : MutationIntent) (src : Source)
    (mid : String) (now : Nat) :
    ((applyUpdateItem a i src mid now).success = false →
      (applyUpdateItem a i src mid now).newState = none ∧
      (applyUpdateItem a i src mid now).error.isSome = true) ∧
    ((applyUpdateItem a i src mid now).success = true →
      (applyUpdateItem a i src mid now).newState.isSome = true) := by
  cases hp : i.details.property with
  | some p => simp [applyUpdateItem, hp]
  | none =>
    cases hv : i.details.value with
    | none => simp [applyUpdateItem, hp, hv]
    | some v =>
      cases v <;> simp [applyUpdateItem, hp, hv]


/-- C8: `applyMutation` never yields a partial result — on failure (validation
failure, ambiguous intent, unsupported operation) the result carries
`success = false` with an error message and no `newState`; on success a
`newState` is always present; and the specific ambiguous `update_item`
(no property and no object-typed value) is an explicit error, not a silent
no-op. -/
theorem C8_no_partial_result (a : Artifact) (i : MutationIntent) (src : Source)
    (uuid mid : String) (now : Nat) :
    ((applyMutation a i src uuid mid now).success = false →
      (applyMutation a i src uuid mid now).newState = none ∧
      (applyMutation a i src uuid mid now).error.isSome = true) ∧
    ((applyMutation a i src uuid mid now).success = true →
      (applyMutation a i src uuid mid now).newState.isSome = true) ∧
    (i.type = .update_item → i.details.property = none →
      (∀ o : JObj, i.details.value ≠ some (JVal.obj o)) →
      validateMutation a i = none →
      applyMutation a i src uuid mid now =
        { success := false,
          error := some "Invalid update: value must be an object when no property is specified" }) := by
  refine ⟨?_, ?_, ?_⟩
  · intro h
    cases hvv : validateMutation a i with
    | some err => simp [applyMutation, hvv]
    | none =>
      cases hty : i.type
      case remove_item =>
        have hma : applyMutation a i src uuid mid now = applyRemoveItem a i src mid now := by
          simp [applyMutation, hvv, hty]
        rw [hma] at h
        simp [applyRemoveItem] at h
      case add_item =>
        have hma : applyMutation a i src uuid mid now = applyAddItem a i src uuid mid now := by
          simp [applyMutation, hvv, hty]
        rw [hma] at h
        simp [applyAddItem] at h
      case update_item =>
        have hma : applyMutation a i src uuid mid now = applyUpdateItem a i src mid now := by
          simp [applyMutation, hvv, hty]
        rw [hma] at h ⊢
        exact (applyUpdateItem_shape a i src mid now).1 h
      case update_property =>
        have hma : applyMutation a i src uuid mid now = applyUpdateProperty a i src mid now := by
          simp [applyMutation, hvv, hty]
        rw [hma] at h
        simp [applyUpdateProperty] at h
      case reorder_items =>
        have hma : applyMutation a i src uuid mid now = applyReorderItems a i src mid now := by
          simp [applyMutation, hvv, hty]
        rw [hma] at h
        simp [applyReorderItems] at h
      case bulk_update =>
        have hma : applyMutation a i src uuid mid now =
            { success := false, error := some "Unsupported operation: bulk_update" } := by
          simp [applyMutation, hvv, hty]
        rw [hma]
        exact ⟨rfl, rfl⟩
  · intro h
    cases hvv : validateMutation a i with
    | some err =>
      have hma : applyMutation a i src uuid mid now =
          { success := false, error := some err } := by
        simp [applyMutation, hvv]
      rw [hma] at h
      simp at h
    | none =>
      cases hty : i.type
      case remove_item =>
        have hma : applyMutation a i src uuid mid now = applyRemoveItem a i src mid now := by
          simp [applyMutation, hvv, hty]
        rw [hma]
        rfl
      case add_item =>
        have hma : applyMutation a i src uuid mid now = applyAddItem a i src uuid mid now := by
          simp [applyMutation, hvv, hty]
        rw [hma]
        rfl
      case update_item =>
        have hma : applyMutation a i src uuid mid now = applyUpdateItem a i src mid now := by
          simp [applyMutation, hvv, hty]
        rw [hma] at h ⊢
        exact (applyUpdateItem_shape a i src mid now).2 h
      case update_property =>
        have hma : applyMutation a i src uuid mid now = applyUpdateProperty a i src mid now := by
          simp [applyMutation, hvv, hty]
        rw [hma]
        rfl
      case reorder_items =>
        have hma : applyMutation a i src uuid mid now = applyReorderItems a i src mid now := by
          simp [applyMutation, hvv, hty]
        rw [hma]
        rfl
      case bulk_update =>
        have hma : applyMutation a i src uuid mid now =
            { success := false, error := some "Unsupported operation: bulk_update" } := by
          simp [applyMutation, hvv, hty]
        rw [hma] at h
        simp at h
  · intro hty hp hv hvalid
    have hma : applyMutation a i src uuid mid now = applyUpdateItem a i src mid now := by
      simp [applyMutation, hvalid, hty]
    rw [hma]
    cases hw : i.details.value with
    | none => simp [applyUpdateItem, hp, hw]
    | some w =>
      cases w with
      | obj o => exact absurd hw (hv o)
      | null => simp [applyUpdateItem, hp, hw]
      | undef => simp [applyUpdateItem, hp, hw]
      | bool b => simp [applyUpdateItem, hp, hw]
      | num n => simp [applyUpdateItem, hp, hw]
      | str s => simp [applyUpdateItem, hp, hw]
      | arr xs => simp [applyUpdateItem, hp, hw]

def c8State : JVal :=
  JVal.obj (JObj.ofList [("steps",
    JVal.arr (JArr.ofList [JVal.obj (JObj.ofList [("action", JVal.str "x")])]))])

def c8Artifact : Artifact :=
  { id := "fead1234", type := "ExecutionPlan", state := c8State
    version := 1, createdAt := 1, updatedAt := 1 }

/-- An `update_item` intent with neither a property nor an object value (the
ambiguous-intent shape). -/
def c8Intent : MutationIntent :=
  { type := .update_item, artifactId := "fead1234"
    details := { itemIndex := some 0, value := some (JVal.num 1) }
    originalMessage := "update item 1" }

/-- Witness for C8: the ambiguous update is rejected with the explicit error
and no `newState`. -/
theorem C8_no_partial_result_witness :
    (applyMutation c8Artifact c8Intent .user "u1" "m1" 5).success = false ∧
    (applyMutation c8Artifact c8Intent .user "u1" "m1" 5).newState = none ∧
    applyMutation c8Artifact c8Intent .user "u1" "m1" 5 =
      { success := false,
        error := some "Invalid update: value must be an object when no property is specified" } := by
  have h := C8_no_partial_result c8Artifact c8Intent .user "u1" "m1" 5
  have h3 := h.2.2 rfl rfl (fun o heq => by simp [c8Intent] at heq) (by decide)
  exact ⟨by rw [h3], by rw [h3], h3⟩

/-! ## C3: reference resolution priority -/

def c3Abad : Artifact :=
  { id := "zzzzzzzz", type := "ExecutionPlan", state := JVal.null
    version := 1, createdAt := 1, updatedAt := 1 }

def c3Bbad : Artifact :=
  { id := "bbbb1111", type := "ExecutionPlan", state := JVal.null
    version := 1, createdAt := 2, updatedAt := 2 }

def c3Cbad : Artifact :=
  { id := "cccc2222", type := "ExecutionPlan", state := JVal.null
    version := 1, createdAt := 3, updatedAt := 3 }

def c3ArtsBad : List (String × Artifact) :=
  [("zzzzzzzz", c3Abad), ("bbbb1111", c3Bbad), ("cccc2222", c3Cbad)]

/-- C3 counterexample: the id regex of the explicit-id strategy is
`/\#([a-f0-9]{8})/i` — hex digits only — while `shortId()` draws from the
full base-36 alphabet.  For the stored artifact id `"zzzzzzzz"` the text
`"remove item 2 from #zzzzzzzz"` matches no strategy at all and resolution
returns `null`, not A. -/
theorem C3_resolution_counterexample :
    c3ArtsBad.lookup "zzzzzzzz" = some c3Abad ∧
    c3Abad.createdAt < c3Bbad.createdAt ∧ c3Bbad.createdAt < c3Cbad.createdAt ∧
    resolveReference "remove item 2 from #zzzzzzzz" c3ArtsBad [] = none := by
  decide

theorem findHashHexId_append (l r : List Char) (hl : l.all (fun c => !(c = '#')) = true) :
    findHashHexId (l ++ r) = findHashHexId r := by
  induction l with
  | nil => rfl
  | cons c t ih =>
    simp only [List.all_cons, Bool.and_eq_true, Bool.not_eq_true'] at hl
    have hc : ¬(c = '#') := by
      intro h
      rw [h] at hl
      simp at hl
    simp [findHashHexId, hc, ih hl.2]


/-- The explicit-id strategy of `resolveReference`, isolated: if the hex-id
scan captures `cap` and the lowercased capture is a key of the store, it is
returned regardless of every later strategy. -/
theorem resolveReference_by_id (message : String) (arts : List (String × Artifact))
    (recent : List String) (cap : List Char)
    (hne : (arts.map Prod.snd).isEmpty = false)
    (hscan : findHashHexId message.data = some cap)
    (hlook : (arts.lookup (String.mk (cap.map Char.toLower))).isSome = true) :
    resolveReference message arts recent = some (String.mk (cap.map Char.toLower)) := by
  simp [resolveReference, hne, hscan, hlook]

theorem insertDescBy_length {α : Type} (key : α → Nat) (x : α) (l : List α) :
    (insertDescBy key x l).length = l.length + 1 := by
  induction l with
  | nil => rfl
  | cons y ys ih =>
    by_cases h : key y ≤ key x
    · simp [insertDescBy, h]
    · simp [insertDescBy, h, ih]

theorem sortDescBy_length {α : Type} (key : α → Nat) (l : List α) :
    (sortDescBy key l).length = l.length := by
  induction l with
  | nil => rfl
  | cons y ys ih =>
    simp [sortDescBy, List.foldr] at ih ⊢
    rw [insertDescBy_length, ih]

/-- The recency strategy of `resolveReference`, isolated: when no earlier
strategy fires and the message mentions "last", the newest artifact by
creation time is returned. -/
theorem resolveReference_by_last (message : String) (arts : List (String × Artifact))
    (recent : List String)
    (hne : (arts.map Prod.snd).isEmpty = false)
    (h1 : findHashHexId message.data = none)
    (h2 : findArtifactHexId message.data = none)
    (t3 : testCI "first" message.data = false)
    (t4 : testCI "1st" message.data = false)
    (t5 : testCI "second" message.data = false)
    (t6 : testCI "2nd" message.data = false)
    (t7 : testCI "third" message.data = false)
    (t8 : testCI "3rd" message.data = false)
    (t9 : testCI "last" message.data = true) :
    resolveReference message arts recent =
      ((sortDescBy (fun a => a.createdAt) (arts.map Prod.snd))[0]?).map (fun a => a.id) := by
  simp only [resolveReference, hne, h1, h2, t3, t4, t5, t6, t7, t8, t9]
  cases hx : (sortDescBy (fun a => a.createdAt) (arts.map Prod.snd))[0]? with
  | some a => simp [hx]
  | none =>
    exfalso
    have hlen0 : (sortDescBy (fun a => a.createdAt) (arts.map Prod.snd)).length ≤ 0 := by
      exact List.getElem?_eq_none_iff.mp hx
    rw [sortDescBy_length] at hlen0
    cases harts : arts.map Prod.snd with
    | nil => rw [harts] at hne; simp at hne
    | cons hd tl => rw [harts] at hlen0; simp at hlen0

/-- C3 amended: the strict strategy priority holds as claimed provided the
explicit id has the shape the id regex recognises — eight lowercase hex
characters (`/\#([a-f0-9]{8})/i`); ids drawn from the rest of the base-36
alphabet are invisible to the explicit-id strategy (see the counterexample).
With A (oldest), B, C (newest): `"remove item 2 from #<A.id>"` resolves to A
(explicit id beats every later strategy) and `"remove the last step"`
resolves to C, the newest by creation time. -/
theorem C3_resolution_priority (A B C : Artifact) (recent : List String)
    (hlen : A.id.data.length = 8)
    (hhex : A.id.data.all isHexDigitCI = true)
    (hlow : A.id.data.map Char.toLower = A.id.data)
    (hAB : A.createdAt < B.createdAt) (hBC : B.createdAt < C.createdAt) :
    resolveReference ("remove item 2 from #" ++ A.id) [(A.id, A), (B.id, B), (C.id, C)] recent =
      some A.id ∧
    resolveReference "remove the last step" [(A.id, A), (B.id, B), (C.id, C)] recent =
      some C.id := by
  have hmkid : String.mk (A.id.data.map Char.toLower) = A.id := by
    rw [hlow]
  constructor
  · have hmsgdata : ("remove item 2 from #" ++ A.id).data =
        "remove item 2 from ".data ++ ('#' :: A.id.data) := by
      rw [String.data_append]
      have hpre : "remove item 2 from #".data = "remove item 2 from ".data ++ ['#'] := by rfl
      rw [hpre, List.append_assoc]
      rfl
    have htake : A.id.data.take 8 = A.id.data := by
      rw [← hlen]
      exact List.take_length _
    have hscan : findHashHexId ("remove item 2 from #" ++ A.id).data = some A.id.data := by
      rw [hmsgdata, findHashHexId_append _ _ (by decide)]
      simp [findHashHexId, hlen, htake, hhex]
    have hlook : (([(A.id, A), (B.id, B), (C.id, C)] : List (String × Artifact)).lookup
        (String.mk (A.id.data.map Char.toLower))).isSome = true := by
      rw [hmkid]
      simp [List.lookup]
    have h := resolveReference_by_id ("remove item 2 from #" ++ A.id)
      [(A.id, A), (B.id, B), (C.id, C)] recent A.id.data (by simp) hscan hlook
    rw [h, hmkid]
  · have h1 : ¬(C.createdAt ≤ B.createdAt) := Nat.not_le.mpr hBC
    have h2 : ¬(C.createdAt ≤ A.createdAt) := Nat.not_le.mpr (lt_trans hAB hBC)
    have h3 : ¬(B.createdAt ≤ A.createdAt) := Nat.not_le.mpr hAB
    have hsort : sortDescBy (fun a => a.createdAt) [A, B, C] = [C, B, A] := by
      simp [sortDescBy, insertDescBy, h1, h2, h3]
    have h := resolveReference_by_last "remove the last step"
      [(A.id, A), (B.id, B), (C.id, C)] recent (by simp)
      (by decide) (by decide) (by decide) (by decide) (by decide) (by decide)
      (by decide) (by decide) (by decide)
    rw [h]
    simp [hsort]

def c3A : Artifact :=
  { id := "abc12345", type := "ExecutionPlan", state := JVal.null
    version := 1, createdAt := 1, updatedAt := 1 }

def c3B : Artifact :=
  { id := "bbbb1111", type := "ExecutionPlan", state := JVal.null
    version := 1, createdAt := 2, updatedAt := 2 }

def c3C : Artifact :=
  { id := "cccc2222", type := "ExecutionPlan", state := JVal.null
    version := 1, createdAt := 3, updatedAt := 3 }

/-- Witness for the amended C3 with a store of three artifacts whose oldest
member has an eight-hex-digit id. -/
theorem C3_resolution_priority_witness :
    c3A.id.data.length = 8 ∧
    resolveReference ("remove item 2 from #" ++ c3A.id)
      [(c3A.id, c3A), (c3B.id, c3B), (c3C.id, c3C)] [] = some c3A.id ∧
    resolveReference "remove the last step"
      [(c3A.id, c3A), (c3B.id, c3B), (c3C.id, c3C)] [] = some c3C.id :=
  ⟨by decide,
   (C3_resolution_priority c3A c3B c3C [] (by decide) (by decide) (by decide)
     (by decide) (by decide)).1,
   (C3_resolution_priority c3A c3B c3C [] (by decide) (by decide) (by decide)
     (by decide) (by decide)).2⟩

/-! ## C10: inferRelationshipType is stateful across calls -/

/-- C10: evaluation at the failing input.  The module-level patterns carry the
`/g` flag and `.test()` advances their persistent `lastIndex`: calling
`inferRelationshipType("depends on x")` twice in a row returns `depends_on`
first and `references` second — the second call's dependency-pattern probe
starts at `lastIndex = 10`, finds nothing in the remainder, and resets.  The
result depends on hidden state carried over from the earlier call, so two
consecutive calls with the same message disagree. -/
theorem C10_inferRelationshipType_stateful :
    (inferRelationshipType "depends on x" freshRegexState).1 = RelationType.depends_on ∧
    (inferRelationshipType "depends on x" freshRegexState).2 = [0, 10, 0, 0, 0, 0] ∧
    (inferRelationshipType "depends on x"
      (inferRelationshipType "depends on x" freshRegexState).2).1 = RelationType.references ∧
    RelationType.depends_on ≠ RelationType.references := by
  decide

/-! ## C6: the relationship-verb table -/

theorem tryAltAt_isSome (a : AltLit) (s : List Char) :
    (tryAltAt a s).isSome = startsWithL a.lit.data s := by
  by_cases h : startsWithL a.lit.data s = true
  · simp only [tryAltAt, h, if_true]
    split <;> simp
  · simp only [Bool.not_eq_true] at h
    simp [tryAltAt, h]

theorem tryPatternAt_alts_isSome (as : List AltLit) (s : List Char) :
    (tryPatternAt (.alts as) s).isSome = as.any (fun a => startsWithL a.lit.data s) := by
  induction as with
  | nil => simp [tryPatternAt]
  | cons a rest ih =>
    simp only [tryPatternAt] at ih ⊢
    cases hta : tryAltAt a s with
    | some n =>
      have hsw : startsWithL a.lit.data s = true := by
        rw [← tryAltAt_isSome, hta]
        rfl
      simp [List.findSome?_cons, hta, hsw]
    | none =>
      have hsw : startsWithL a.lit.data s = false := by
        rw [← tryAltAt_isSome, hta]
        rfl
      simp [List.findSome?_cons, hta, hsw, ih]

theorem list_any_orB {α : Type} (f g : α → Bool) (l : List α) :
    (l.any fun a => f a || g a) = (l.any f || l.any g) := by
  induction l with
  | nil => rfl
  | cons a t ih =>
    cases hf : f a <;> cases hg : g a <;> simp [List.any_cons, hf, hg, ih]

theorem findMatchFrom_alts_isSome (as : List AltLit) :
    ∀ (i : Nat) (s : List Char),
      (findMatchFrom (.alts as) i s).isSome = as.any (fun a => containsSubL a.lit.data s) := by
  intro i s
  induction s generalizing i with
  | nil =>
    have h := tryPatternAt_alts_isSome as []
    simp only [findMatchFrom]
    cases htp : tryPatternAt (.alts as) [] with
    | some n =>
      rw [htp] at h
      simp only [Option.isSome_some] at h
      simp only [Option.isSome_some, containsSubL]
      exact h
    | none =>
      rw [htp] at h
      simp only [Option.isSome_none] at h
      simp only [Option.isSome_none, containsSubL]
      exact h
  | cons c tl ih =>
    have h := tryPatternAt_alts_isSome as (c :: tl)
    have hrhs : (as.any fun a => containsSubL a.lit.data (c :: tl)) =
        ((as.any fun a => startsWithL a.lit.data (c :: tl)) ||
         (as.any fun a => containsSubL a.lit.data tl)) := by
      have hstep : (as.any fun a => containsSubL a.lit.data (c :: tl)) =
          (as.any fun a => startsWithL a.lit.data (c :: tl) || containsSubL a.lit.data tl) := by
        simp only [containsSubL]
      rw [hstep]
      exact list_any_orB _ _ as
    simp only [findMatchFrom]
    cases htp : tryPatternAt (.alts as) (c :: tl) with
    | some n =>
      rw [htp] at h
      simp only [Option.isSome_some] at h
      simp only [Option.isSome_some]
      rw [hrhs, ← h]
      simp
    | none =>
      rw [htp] at h
      simp only [Option.isSome_none] at h
      rw [ih (i + 1), hrhs, ← h]
      simp

theorem findMatchFrom_hash_isSome :
    ∀ (i : Nat) (s : List Char),
      (findMatchFrom .hash i s).isSome = relIdRefIn s := by
  intro i s
  induction s generalizing i with
  | nil => simp [findMatchFrom, tryPatternAt, relIdRefIn]
  | cons c tl ih =>
    simp only [findMatchFrom, relIdRefIn]
    by_cases hc : c = '#'
    · by_cases hrun : 6 ≤ (tl.takeWhile isRelIdChar).length
      · simp [tryPatternAt, hc, hrun]
      · simp [tryPatternAt, hc, hrun, ih (i + 1)]
    · simp [tryPatternAt, hc, ih (i + 1)]

theorem testG_fst_zero (p : RelPattern) (s : List Char) :
    (testG p s 0).1 = (findMatchFrom p 0 s).isSome := by
  simp only [testG, List.drop_zero]
  cases h : findMatchFrom p 0 s <;> simp

theorem inferAux_fresh_spec (m : List Char) :
    (inferAux m RELATIONSHIP_PATTERNS freshRegexState).1 =
      (if relIdRefIn m then RelationType.references
       else if dependsPhrases.any (fun p => phraseIn p m) then RelationType.depends_on
       else if derivedPhrases.any (fun p => phraseIn p m) then RelationType.derived_from
       else if conflictPhrases.any (fun p => phraseIn p m) then RelationType.conflicts_with
       else if referencePhrases.any (fun p => phraseIn p m) then RelationType.references
       else if similarPhrases.any (fun p => phraseIn p m) then RelationType.similar_to
       else RelationType.references) := by
  have e1 : (testG .hash m 0).1 = relIdRefIn m := by
    rw [testG_fst_zero, findMatchFrom_hash_isSome]
  have e2 : (testG (.alts [⟨"depends on", false⟩, ⟨"requires", false⟩, ⟨"needs", false⟩,
      ⟨"relies on", false⟩, ⟨"based on", false⟩]) m 0).1 =
      dependsPhrases.any (fun p => phraseIn p m) := by
    rw [testG_fst_zero, findMatchFrom_alts_isSome]
    simp [dependsPhrases, phraseIn]
  have e3 : (testG (.alts [⟨"derived from", false⟩, ⟨"created from", false⟩,
      ⟨"built from", false⟩, ⟨"extracted from", false⟩]) m 0).1 =
      derivedPhrases.any (fun p => phraseIn p m) := by
    rw [testG_fst_zero, findMatchFrom_alts_isSome]
    simp [derivedPhrases, phraseIn]
  have e4 : (testG (.alts [⟨"conflicts with", false⟩, ⟨"contradicts", false⟩,
      ⟨"incompatible with", false⟩, ⟨"overrides", false⟩]) m 0).1 =
      conflictPhrases.any (fun p => phraseIn p m) := by
    rw [testG_fst_zero, findMatchFrom_alts_isSome]
    simp [conflictPhrases, phraseIn]
  have e5 : (testG (.alts [⟨"reference", true⟩, ⟨"mention", true⟩, ⟨"refers to", false⟩,
      ⟨"see also", false⟩, ⟨"related to", false⟩]) m 0).1 =
      referencePhrases.any (fun p => phraseIn p m) := by
    rw [testG_fst_zero, findMatchFrom_alts_isSome]
    simp [referencePhrases, phraseIn]
  have e6 : (testG (.alts [⟨"similar to", false⟩, ⟨"like", false⟩, ⟨"same as", false⟩,
      ⟨"equivalent to", false⟩]) m 0).1 =
      similarPhrases.any (fun p => phraseIn p m) := by
    rw [testG_fst_zero, findMatchFrom_alts_isSome]
    simp [similarPhrases, phraseIn]
  simp only [RELATIONSHIP_PATTERNS, freshRegexState, inferAux]
  rw [e1, e2, e3, e4, e5, e6]
  by_cases b1 : relIdRefIn m
  · simp [b1]
  · by_cases b2 : dependsPhrases.any (fun p => phraseIn p m)
    · simp [b1, b2]
    · by_cases b3 : derivedPhrases.any (fun p => phraseIn p m)
      · simp [b1, b2, b3]
      · by_cases b4 : conflictPhrases.any (fun p => phraseIn p m)
        · simp [b1, b2, b3, b4]
        · by_cases b5 : referencePhrases.any (fun p => phraseIn p m)
          · simp [b1, b2, b3, b4, b5]
          · by_cases b6 : similarPhrases.any (fun p => phraseIn p m)
            · simp [b1, b2, b3, b4, b5, b6]
            · simp [b1, b2, b3, b4, b5, b6]

theorem inferRelationshipType_fresh (message : String) :
    (inferRelationshipType message freshRegexState).1 = specInferredType message := by
  unfold inferRelationshipType specInferredType
  exact inferAux_fresh_spec (message.data.map Char.toLower)

theorem detectRelationships_edge_type (message : String) (src : Option String)
    (arts : List (String × Artifact)) (st : List Nat) :
    ∀ e ∈ (detectRelationships message src arts st).1,
      e.type = (inferRelationshipType message st).1 := by
  intro e he
  unfold detectRelationships at he
  by_cases hempty :
      (jsSetDedup (detectExplicitReferences message arts ++
        detectTypeReferences message arts)).isEmpty
  · simp [hempty] at he
  · simp only [hempty, Bool.false_eq_true, if_false] at he
    cases src with
    | none =>
      simp only at he
      split at he
      · obtain ⟨p, _, hpe⟩ := List.mem_map.mp he
        rw [← hpe]
      · simp at he
    | some srcId =>
      simp only at he
      split at he
      · obtain ⟨t, _, hte⟩ := List.mem_map.mp he
        rw [← hte]
      · split at he
        · obtain ⟨p, _, hpe⟩ := List.mem_map.mp he
          rw [← hpe]
        · simp at he

def c6A : Artifact :=
  { id := "abc123", type := "Note", state := JVal.null
    version := 1, createdAt := 1, updatedAt := 1 }

def c6B : Artifact :=
  { id := "def456", type := "Note", state := JVal.null
    version := 1, createdAt := 2, updatedAt := 2 }

def c6Arts : List (String × Artifact) := [("abc123", c6A), ("def456", c6B)]

/-- C6 counterexample: the pattern table's first entry is the explicit-id
pattern `/#([a-z0-9]{6,10})/gi → references`, which the claim omits.  The
message `"#abc123 depends on #def456"` references two artifacts and contains
the dependency phrase "depends on", yet the produced edge has type
`references`, not `depends_on`, because the `#`-token pattern fires first. -/
theorem C6_verb_table_counterexample :
    phraseIn "depends on" ("#abc123 depends on #def456".data.map Char.toLower) = true ∧
    (detectRelationships "#abc123 depends on #def456" none c6Arts freshRegexState).1 =
      [DetectedRelationship.mk "abc123" "def456" RelationType.references
        "Both referenced in message"] ∧
    RelationType.references ≠ RelationType.depends_on := by
  decide

/-- C6 amended: on a fresh module (all regex `lastIndex` at 0 — see C10 for
the statefulness), the edge type produced by `detectRelationships` follows
the source's ordered table, which contains two entries the claim's list
omits: the explicit-id pattern `#<6-10 base-36 chars> → references` comes
first, and the reference-phrase group
(reference/mention/refers to/see also/related to → references) precedes the
similarity group; dependency, derivation, conflict and similarity phrases
yield their respective types only when no earlier pattern matches, and the
default is `references`.  Every edge of one `detectRelationships` call is
stamped with that single inferred type. -/
theorem C6_relationship_type_table (message : String) (src : Option String)
    (arts : List (String × Artifact)) :
    (inferRelationshipType message freshRegexState).1 = specInferredType message ∧
    ∀ e ∈ (detectRelationships message src arts freshRegexState).1,
      e.type = specInferredType message := by
  refine ⟨inferRelationshipType_fresh message, ?_⟩
  intro e he
  rw [detectRelationships_edge_type message src arts freshRegexState e he]
  exact inferRelationshipType_fresh message

def c6P : Artifact :=
  { id := "abc123", type := "ExecutionPlan", state := JVal.null
    version := 1, createdAt := 1, updatedAt := 1 }

def c6S : Artifact :=
  { id := "def456", type := "SystemStatusPanel", state := JVal.null
    version := 1, createdAt := 2, updatedAt := 2 }

def c6WitArts : List (String × Artifact) := [("abc123", c6P), ("def456", c6S)]

/-- Witness for the amended C6: "the plan depends on the status" (type-name
references, no `#` token) produces one `depends_on` edge, matching the
spec-side table. -/
theorem C6_relationship_type_table_witness :
    specInferredType "the plan depends on the status" = RelationType.depends_on ∧
    (detectRelationships "the plan depends on the status" none c6WitArts freshRegexState).1 =
      [DetectedRelationship.mk "abc123" "def456" RelationType.depends_on
        "Both referenced in message"] ∧
    (DetectedRelationship.mk "abc123" "def456" RelationType.depends_on
        "Both referenced in message").type =
      specInferredType "the plan depends on the status" :=
  ⟨by decide, by decide,
   (C6_relationship_type_table "the plan depends on the status" none c6WitArts).2
     _ (by decide)⟩
